import Mathlib

/-!
Verification of the selective-retry decision engine of the storyCrew repository.

The Python sources embedded here are:
* `src/storycrew/models/retry_level.py` — `RetryLevel`, `determine_retry_level`;
* `src/storycrew/models/judge_report.py` — `Issue`, `JudgeReport`;
* `src/storycrew/models/scene_list.py` — `Scene`, `SceneList`;
* `src/storycrew/models/chapter_generation_state.py` — `ChapterGenerationState`, `to_preserve`;
* `src/storycrew/crews/chapter_crew.py` — scene-list normalization, pipeline
  selection, the escalation guard and the `generate_chapter` attempt loop.

Modelling conventions:
* Python ints are `Int`; Python strings are `String`.
* Python float arithmetic in `_normalize_scene_list_word_count`
  (`round(target_words * (3000 / current_sum))`) is modelled as the exact
  rational `target_words * 3000 / current_sum` rounded half-to-even
  (`roundHalfEven`, the rounding mode of Python `round`).
* Raised Python exceptions are values of `PyExc` carried in `Except`.
  pydantic `BaseModel` attribute semantics are modelled faithfully: assigning
  a field that the model does not declare raises `ValueError`, reading one
  raises `AttributeError`.  `ChapterGenerationState` declares
  `edit_retry_count` but no `write_retry_count`.
* JSON strings holding scene lists are modelled by `PyStr`, which records the
  outcome of `SceneList.model_validate_json` on them (valid payload, invalid
  payload, or the empty string); serialization round-trips.
* LLM stage execution (`Crew.kickoff`) is an external collaborator and is an
  oracle parameter of the attempt loop.
-/

/-! ## Small executable string helpers (for the rate-limit checks) -/

def charsStartWith (pat hay : List Char) : Bool :=
  match pat, hay with
  | [], _ => true
  | _ :: _, [] => false
  | p :: ps, h :: hs => p == h && charsStartWith ps hs

def charsContain (pat : List Char) : List Char → Bool
  | [] => pat.isEmpty
  | h :: hs => charsStartWith pat (h :: hs) || charsContain pat hs

/-- Python `pat in hay` on strings. -/
def strContainsSub (hay pat : String) : Bool := charsContain pat.data hay.data

/-- Python `s.lower()`. -/
def strLower (s : String) : String := String.mk (s.data.map Char.toLower)

/-- Python built-in `abs` on an int. -/
def pyAbs (n : Int) : Int := if n < 0 then -n else n

/-- Round-half-to-even of the exact rational `num / den` (`den ≠ 0`), the
rounding mode used by Python `round` on floats. -/
def roundHalfEven (num den : Int) : Int :=
  let den2 : Int := if den < 0 then -den else den
  let num2 : Int := if den < 0 then -num else num
  let q : Int := Int.fdiv num2 den2
  let r : Int := num2 - q * den2
  if 2 * r < den2 then q
  else if 2 * r > den2 then q + 1
  else if q % 2 = 0 then q else q + 1

/-! ## Judge-report data model (`judge_report.py`)

`scores`, `hard_fail` and the whole-book metrics are opaque to the retry
engine (and `plant_payoff_coverage` is a float); they are omitted because no
embedded operation reads them. -/

inductive Severity
  | low | medium | high | critical
deriving DecidableEq, Repr

/-- The issue categories (the Python literal strings); the `"structure"`
category is the constructor `structure_`, since the bare name is a keyword. -/
inductive IssueType
  | continuity | structure_ | motivation | pacing
  | clue_fairness | prose | hook | safety | word_count
deriving DecidableEq, Repr

structure Issue where
  type : IssueType
  severity : Severity
  note : String := ""
  location : Option String := none
deriving DecidableEq, Repr

structure JudgeReport where
  chapter : Option Int := none
  word_count : Option Int := none
  is_whole_book : Bool := false
  passed : Bool := false
  issues : List Issue := []
  revision_instructions : List String := []
  strengths : List String := []
deriving DecidableEq, Repr

/-! ## Retry levels and the classifier (`retry_level.py`) -/

inductive RetryLevel
  | EDIT_ONLY | WRITE_ONLY | FULL_RETRY
deriving DecidableEq, Repr

/-- `RetryLevel.value` of the Python enum. -/
def RetryLevel.value : RetryLevel → String
  | .EDIT_ONLY => "edit_only"
  | .WRITE_ONLY => "write_only"
  | .FULL_RETRY => "full_retry"

/-- `{issue.type for issue in judge_report.issues}` (as a list; membership
tests below match Python set membership). -/
def issueTypes (judge_report : JudgeReport) : List IssueType :=
  judge_report.issues.map Issue.type

/-- `t in issue_types`. -/
def hasIssueType (judge_report : JudgeReport) (t : IssueType) : Bool :=
  (issueTypes judge_report).contains t

/-- `bool(issue_types & {ts...})`: the issue-category set intersects `ts`. -/
def hasAnyType (judge_report : JudgeReport) (ts : List IssueType) : Bool :=
  ts.any (fun t => (issueTypes judge_report).contains t)

/-- `any(i.severity in ["high", "critical"] for i in safety_issues)` where
`safety_issues = [i for i in judge_report.issues if i.type == "safety"]`. -/
def hasHighOrCriticalSafety (judge_report : JudgeReport) : Bool :=
  (judge_report.issues.filter (fun i => i.type == IssueType.safety)).any
    (fun i => i.severity == Severity.high || i.severity == Severity.critical)

/-- `determine_retry_level` from `retry_level.py`, line for line. -/
def determine_retry_level (judge_report : JudgeReport) (attempt : Int) : RetryLevel :=
  if attempt ≥ 2 then RetryLevel.FULL_RETRY
  else if hasIssueType judge_report IssueType.structure_ then RetryLevel.FULL_RETRY
  else if hasIssueType judge_report IssueType.safety then
    if hasHighOrCriticalSafety judge_report then RetryLevel.FULL_RETRY
    else RetryLevel.EDIT_ONLY
  else if hasAnyType judge_report
      [IssueType.motivation, IssueType.hook, IssueType.clue_fairness, IssueType.continuity] then
    RetryLevel.WRITE_ONLY
  else if hasAnyType judge_report
      [IssueType.prose, IssueType.pacing, IssueType.word_count] then
    RetryLevel.EDIT_ONLY
  else RetryLevel.WRITE_ONLY

/-- C1: for every judge verdict with `passed = false`,
`determine_retry_level` evaluates its rules in the fixed priority order of
the claim, first match winning: final attempt (`attempt >= 2`) forces
FullRetry; then a structure issue forces FullRetry; then safety issues give
FullRetry when one is high/critical and EditOnly otherwise; then the
content categories give WriteOnly; then the surface categories give
EditOnly; otherwise WriteOnly is the conservative default. -/
theorem claim_C1_classifier_priority (r : JudgeReport) (attempt : Int)
    (_hp : r.passed = false) :
    (2 ≤ attempt → determine_retry_level r attempt = RetryLevel.FULL_RETRY) ∧
    (attempt < 2 → hasIssueType r IssueType.structure_ = true →
      determine_retry_level r attempt = RetryLevel.FULL_RETRY) ∧
    (attempt < 2 → hasIssueType r IssueType.structure_ = false →
      hasIssueType r IssueType.safety = true → hasHighOrCriticalSafety r = true →
      determine_retry_level r attempt = RetryLevel.FULL_RETRY) ∧
    (attempt < 2 → hasIssueType r IssueType.structure_ = false →
      hasIssueType r IssueType.safety = true → hasHighOrCriticalSafety r = false →
      determine_retry_level r attempt = RetryLevel.EDIT_ONLY) ∧
    (attempt < 2 → hasIssueType r IssueType.structure_ = false →
      hasIssueType r IssueType.safety = false →
      hasAnyType r [IssueType.motivation, IssueType.hook, IssueType.clue_fairness,
        IssueType.continuity] = true →
      determine_retry_level r attempt = RetryLevel.WRITE_ONLY) ∧
    (attempt < 2 → hasIssueType r IssueType.structure_ = false →
      hasIssueType r IssueType.safety = false →
      hasAnyType r [IssueType.motivation, IssueType.hook, IssueType.clue_fairness,
        IssueType.continuity] = false →
      hasAnyType r [IssueType.prose, IssueType.pacing, IssueType.word_count] = true →
      determine_retry_level r attempt = RetryLevel.EDIT_ONLY) ∧
    (attempt < 2 → hasIssueType r IssueType.structure_ = false →
      hasIssueType r IssueType.safety = false →
      hasAnyType r [IssueType.motivation, IssueType.hook, IssueType.clue_fairness,
        IssueType.continuity] = false →
      hasAnyType r [IssueType.prose, IssueType.pacing, IssueType.word_count] = false →
      determine_retry_level r attempt = RetryLevel.WRITE_ONLY) := by
  refine ⟨?_, ?_, ?_, ?_, ?_, ?_, ?_⟩ <;>
    intros <;> simp only [determine_retry_level] <;> split_ifs <;> first | rfl | omega | simp_all

/-- Witness for C1 at a concrete verdict: a failing report with a single
medium prose issue at attempt 0 classifies as EditOnly (clause 6), and any
report at attempt 2 classifies as FullRetry (clause 1). -/
theorem claim_C1_classifier_priority_witness :
    determine_retry_level
      { passed := false,
        issues := [{ type := IssueType.prose, severity := Severity.medium }] } 0 =
      RetryLevel.EDIT_ONLY ∧
    determine_retry_level
      { passed := false,
        issues := [{ type := IssueType.prose, severity := Severity.medium }] } 2 =
      RetryLevel.FULL_RETRY := by
  constructor
  · exact (claim_C1_classifier_priority
      { passed := false,
        issues := [{ type := IssueType.prose, severity := Severity.medium }] } 0
      rfl).2.2.2.2.2.1 (by decide) (by decide) (by decide) (by decide) (by decide)
  · exact (claim_C1_classifier_priority
      { passed := false,
        issues := [{ type := IssueType.prose, severity := Severity.medium }] } 2
      rfl).1 (by decide)

/-! ## Python exceptions -/

structure PyExc where
  type_name : String
  msg : String
deriving DecidableEq, Repr

/-- `ZeroDivisionError` from `3000 / current_sum` with a zero sum. -/
def zeroDivisionError : PyExc :=
  { type_name := "ZeroDivisionError", msg := "division by zero" }

/-- pydantic `BaseModel.__setattr__` on a field the model does not declare:
`ValueError: "ChapterGenerationState" object has no field "write_retry_count"`. -/
def pydanticNoFieldError (f : String) : PyExc :=
  { type_name := "ValueError",
    msg := "\"ChapterGenerationState\" object has no field \"" ++ f ++ "\"" }

/-- Reading an attribute the pydantic model does not declare raises
`AttributeError` (message paraphrased without quote characters). -/
def pyAttributeError (f : String) : PyExc :=
  { type_name := "AttributeError",
    msg := "ChapterGenerationState object has no attribute " ++ f }

/-- `IndexError: list index out of range`. -/
def indexError : PyExc :=
  { type_name := "IndexError", msg := "list index out of range" }

/-- `NameError` from reading a loop-local variable that was never bound. -/
def nameError (v : String) : PyExc :=
  { type_name := "NameError", msg := "name " ++ v ++ " is not defined" }

/-! ## Scene-list data model (`scene_list.py`) -/

structure Scene where
  scene_number : Int
  purpose : String
  setting : String := ""
  characters : List String := []
  conflict : String := ""
  action_beat : String := ""
  dialogue_focus : String := ""
  information_revealed : String := ""
  emotional_shift : String := ""
  plot_advancement : String := ""
  exit_hook : String := ""
  target_words : Int := 400
  notes : List String := []
deriving DecidableEq, Repr

structure SceneList where
  chapter_number : Int
  chapter_title : String := ""
  scenes : List Scene := []
  total_target_words : Int := 3000
  clues_to_plant : List String := []
  clues_to_reveal : List String := []
  plot_points_to_advance : List String := []
  chapter_goal : String := ""
  required_emotional_arc : String := ""
deriving DecidableEq, Repr

/-- `sum(scene.target_words for scene in scenes)`. -/
def sceneWordSum (scenes : List Scene) : Int :=
  (scenes.map Scene.target_words).sum

/-- `corrected_scenes[-1].target_words += diff` on a nonempty list (the code
reaches it only with a nonempty list: an empty list has sum 0 and raises at
the division before this point). -/
def addToLast (d : Int) : List Scene → List Scene
  | [] => []
  | [s] => [{ s with target_words := s.target_words + d }]
  | s :: s2 :: rest => s :: addToLast d (s2 :: rest)

theorem addToLast_length (d : Int) (l : List Scene) :
    (addToLast d l).length = l.length := by
  induction l with
  | nil => rfl
  | cons s rest ih =>
    cases rest with
    | nil => rfl
    | cons s2 r2 => simpa [addToLast] using ih

theorem sceneWordSum_addToLast (d : Int) (l : List Scene) (h : l ≠ []) :
    sceneWordSum (addToLast d l) = sceneWordSum l + d := by
  induction l with
  | nil => exact absurd rfl h
  | cons s rest ih =>
    cases rest with
    | nil => simp [addToLast, sceneWordSum]
    | cons s2 r2 =>
      have := ih (by simp)
      simp only [addToLast, sceneWordSum, List.map_cons, List.sum_cons] at this ⊢
      omega

theorem addToLast_get?_of_lt (d : Int) (l : List Scene) (i : Nat)
    (h : i + 1 < l.length) : (addToLast d l).get? i = l.get? i := by
  induction l generalizing i with
  | nil => simp at h
  | cons s rest ih =>
    cases rest with
    | nil => simp at h
    | cons s2 r2 =>
      cases i with
      | zero => rfl
      | succ j =>
        have := ih j (by simpa using h)
        simpa [addToLast] using this

/-- `ChapterCrew._normalize_scene_list_word_count` (`chapter_crew.py`).
`target_total = 3000`, `tolerance = 100`; within tolerance the list is
returned untouched; otherwise every scene is rescaled by
`3000 / current_sum` with round-half-to-even, and the rounding residual is
added to the last scene.  A zero `current_sum` (always outside tolerance)
raises `ZeroDivisionError` at `scale_factor = target_total / current_sum`. -/
def _normalize_scene_list_word_count (scene_list : SceneList) :
    Except PyExc SceneList :=
  let current_sum := sceneWordSum scene_list.scenes
  if pyAbs (current_sum - 3000) ≤ 100 then .ok scene_list
  else if current_sum = 0 then .error zeroDivisionError
  else
    let corrected_scenes := scene_list.scenes.map (fun scene =>
      { scene with target_words := roundHalfEven (scene.target_words * 3000) current_sum })
    let new_sum := sceneWordSum corrected_scenes
    let corrected2 :=
      if new_sum ≠ 3000 then addToLast (3000 - new_sum) corrected_scenes
      else corrected_scenes
    .ok { scene_list with scenes := corrected2 }

/-- A scene list with one scene whose target is 0: nonempty, sum 0. -/
def sceneListZero : SceneList :=
  { chapter_number := 1,
    scenes := [{ scene_number := 1, purpose := "p", target_words := 0 }] }

/-- Counterexample to C2 as stated: this scene list has a nonempty segment
sequence and a segment-target sum (0) outside the 100-unit tolerance of
3000, yet the correction does not return a rescaled list summing to 3000 —
it raises `ZeroDivisionError`, because `3000 / current_sum` is computed with
no guard on a zero sum. -/
theorem claim_C2_counterexample :
    sceneListZero.scenes ≠ [] ∧
    ¬ pyAbs (sceneWordSum sceneListZero.scenes - 3000) ≤ 100 ∧
    _normalize_scene_list_word_count sceneListZero = .error zeroDivisionError := by
  refine ⟨by decide, by decide, rfl⟩

/-- C2 (amended: the scene list's segment targets must also sum to a nonzero
value): the word-budget correction returns the list unchanged when the sum
of per-segment targets is within 100 units of 3000; otherwise it succeeds
with a list of the same length whose non-last segments carry the targets
rescaled by `3000 / current_sum` rounded to the nearest integer, and whose
targets sum to exactly 3000 (the residual having been absorbed by the last
segment). -/
theorem claim_C2_word_budget (sl : SceneList) (hne : sl.scenes ≠ [])
    (hz : sceneWordSum sl.scenes ≠ 0) :
    (pyAbs (sceneWordSum sl.scenes - 3000) ≤ 100 →
      _normalize_scene_list_word_count sl = .ok sl) ∧
    (¬ pyAbs (sceneWordSum sl.scenes - 3000) ≤ 100 →
      ∃ sl2, _normalize_scene_list_word_count sl = .ok sl2 ∧
        sceneWordSum sl2.scenes = 3000 ∧
        sl2.scenes.length = sl.scenes.length ∧
        ∀ i : Nat, i + 1 < sl.scenes.length →
          (sl2.scenes.get? i).map Scene.target_words =
          (sl.scenes.get? i).map (fun s =>
            roundHalfEven (s.target_words * 3000) (sceneWordSum sl.scenes))) := by
  constructor
  · intro h
    simp only [_normalize_scene_list_word_count]
    rw [if_pos h]
  · intro h
    simp only [_normalize_scene_list_word_count]
    rw [if_neg h, if_neg hz]
    set corrected := sl.scenes.map (fun scene =>
      { scene with target_words :=
          roundHalfEven (scene.target_words * 3000) (sceneWordSum sl.scenes) })
      with hcorr
    have hcorr_ne : corrected ≠ [] := by
      rw [hcorr]
      simpa using hne
    have hlen : corrected.length = sl.scenes.length := by
      rw [hcorr]; simp
    have hget : ∀ i : Nat,
        (corrected.get? i).map Scene.target_words =
        (sl.scenes.get? i).map (fun s =>
          roundHalfEven (s.target_words * 3000) (sceneWordSum sl.scenes)) := by
      intro i
      rw [hcorr, List.get?_map]
      cases sl.scenes.get? i <;> rfl
    by_cases hsum : sceneWordSum corrected = 3000
    · rw [if_neg (not_not_intro hsum)]
      exact ⟨_, rfl, hsum, hlen, fun i _ => hget i⟩
    · rw [if_pos hsum]
      refine ⟨_, rfl, ?_, ?_, ?_⟩
      · show sceneWordSum (addToLast (3000 - sceneWordSum corrected) corrected) = 3000
        rw [sceneWordSum_addToLast _ _ hcorr_ne]
        omega
      · show (addToLast (3000 - sceneWordSum corrected) corrected).length = sl.scenes.length
        rw [addToLast_length]
        exact hlen
      · intro i hi
        show ((addToLast (3000 - sceneWordSum corrected) corrected).get? i).map
            Scene.target_words = _
        rw [addToLast_get?_of_lt _ _ _ (by omega : i + 1 < corrected.length)]
        exact hget i

/-- A scene list with two 1000-word scenes: sum 2000, outside tolerance. -/
def sceneListTwo : SceneList :=
  { chapter_number := 1,
    scenes := [{ scene_number := 1, purpose := "a", target_words := 1000 },
               { scene_number := 2, purpose := "b", target_words := 1000 }] }

/-- Witness for C2 at a concrete out-of-tolerance scene list. -/
theorem claim_C2_word_budget_witness :
    ∃ sl2, _normalize_scene_list_word_count sceneListTwo = .ok sl2 ∧
      sceneWordSum sl2.scenes = 3000 ∧
      sl2.scenes.length = sceneListTwo.scenes.length ∧
      ∀ i : Nat, i + 1 < sceneListTwo.scenes.length →
        (sl2.scenes.get? i).map Scene.target_words =
        (sceneListTwo.scenes.get? i).map (fun s =>
          roundHalfEven (s.target_words * 3000) (sceneWordSum sceneListTwo.scenes)) :=
  (claim_C2_word_budget sceneListTwo (by decide) (by decide)).2 (by decide)

/-- C10: for every scene list whose per-segment targets sum to 0 (in
particular one with no segments), the sum is outside the 100-unit tolerance
of 3000 and the correction raises `ZeroDivisionError` from the unguarded
`3000 / current_sum`. -/
theorem claim_C10_zero_sum_raises (sl : SceneList)
    (h : sceneWordSum sl.scenes = 0) :
    ¬ pyAbs (sceneWordSum sl.scenes - 3000) ≤ 100 ∧
    _normalize_scene_list_word_count sl = .error zeroDivisionError := by
  constructor
  · rw [h]; decide
  · simp only [_normalize_scene_list_word_count]
    rw [if_neg (by rw [h]; decide), if_pos h]

/-- Witness for C10 at the empty scene list. -/
theorem claim_C10_zero_sum_raises_witness :
    ¬ pyAbs (sceneWordSum (SceneList.mk 1 "" [] 3000 [] [] [] "" "").scenes - 3000) ≤ 100 ∧
    _normalize_scene_list_word_count (SceneList.mk 1 "" [] 3000 [] [] [] "" "") =
      .error zeroDivisionError :=
  claim_C10_zero_sum_raises (SceneList.mk 1 "" [] 3000 [] [] [] "" "") (by decide)

/-! ## Scene-list JSON strings

A Python string holding a candidate scene-list JSON payload, partitioned by
the outcome of `SceneList.model_validate_json` on it.  Serialization
(`model_dump_json`) of a `SceneList` yields a nonempty string that parses
back to the same value. -/

inductive PyStr
  | empty
  | validJson (sl : SceneList)
  | invalidJson (s : String)
deriving DecidableEq, Repr

/-- Python truthiness of the underlying string (only `""` is falsy). -/
def PyStr.truthy : PyStr → Bool
  | .empty => false
  | _ => true

/-- `ChapterCrew._parse_scene_list_safe`: `SceneList.model_validate_json`
inside try/except, returning `None` on any parse failure (the empty string
fails to parse). -/
def _parse_scene_list_safe : PyStr → Option SceneList
  | .validJson sl => some sl
  | _ => none

/-- `ChapterCrew._parse_and_normalize_scene_list`: parse, then word-budget
correction; `None` propagates, and a `ZeroDivisionError` raised by the
correction propagates as an exception. -/
def _parse_and_normalize_scene_list (j : PyStr) : Except PyExc (Option SceneList) :=
  match _parse_scene_list_safe j with
  | none => .ok none
  | some sl =>
      match _normalize_scene_list_word_count sl with
      | .ok sl2 => .ok (some sl2)
      | .error e => .error e

/-! ## Chapter generation state (`chapter_generation_state.py`) -/

/-- `ChapterGenerationState`.  The pydantic model declares
`edit_retry_count` but **no** `write_retry_count`, although
`generate_chapter` assigns and increments one. -/
structure ChapterGenerationState where
  scene_list : Option PyStr := none
  draft_text : Option String := none
  revision_text : Option String := none
  current_attempt : Int := 0
  last_retry_level : Option String := none
  edit_retry_count : Int := 0
deriving DecidableEq, Repr

/-- Python truthiness of an `Optional[str]`. -/
def optStrTruthy : Option String → Bool
  | none => false
  | some s => !(s == "")

/-- Python truthiness of the optional scene-list JSON string. -/
def optPyStrTruthy : Option PyStr → Bool
  | none => false
  | some s => s.truthy

/-- `ChapterGenerationState.to_preserve`: the `inputs` entries preserved for
the next round, as the pair (`scene_list` entry, `draft_text_for_edit`
entry); an absent entry is `none`. -/
def ChapterGenerationState.to_preserve (s : ChapterGenerationState)
    (retry_level : RetryLevel) : Option PyStr × Option String :=
  match retry_level with
  | .EDIT_ONLY =>
      (if optPyStrTruthy s.scene_list then s.scene_list else none,
       if optStrTruthy s.draft_text then s.draft_text else none)
  | .WRITE_ONLY =>
      (if optPyStrTruthy s.scene_list then s.scene_list else none, none)
  | .FULL_RETRY => (none, none)

/-! ## The inputs dict and the pipeline variants (`chapter_crew.py`) -/

/-- The `inputs` dict keys that the retry engine reads or writes.  The
static payload keys (`chapter_number`, `chapter_outline`,
`story_bible_public`, `story_bible_full`, `story_spec`) are opaque
pass-through for the engine and are omitted. -/
structure Inputs where
  scene_list : PyStr := .empty
  scene_list_for_write : PyStr := .empty
  draft_text_for_edit : String := ""
  revision_instructions : String := ""
deriving DecidableEq, Repr

/-- `inputs.update(preserved_inputs)`. -/
def updateInputsPreserved (inputs : Inputs) (p : Option PyStr × Option String) :
    Inputs :=
  let inputs1 := match p.1 with
    | some s => { inputs with scene_list := s }
    | none => inputs
  match p.2 with
  | some d => { inputs1 with draft_text_for_edit := d }
  | none => inputs1

/-- Which of `_run_full_pipeline`, `_run_write_retry`, `_run_edit_retry`
executes the attempt. -/
inductive PipelineKind
  | full | writeRetry | editRetry
deriving DecidableEq, Repr

/-- The ordered task list each pipeline variant executes (the `tasks=`
argument of the `Crew` each `_run_*` method builds). -/
def pipeline_tasks : PipelineKind → List String
  | .full => ["plan_chapter", "write_chapter", "edit_chapter", "judge_chapter",
              "update_bible"]
  | .writeRetry => ["write_chapter", "edit_chapter", "judge_chapter",
                    "update_bible"]
  | .editRetry => ["edit_chapter", "judge_chapter", "update_bible"]

/-- The pipeline-selection block at the top of the `generate_chapter` retry
loop (`chapter_crew.py` lines 413-460): decides which stage list runs this
attempt, performs the WriteOnly scene-plan recovery check and the EditOnly
input priming, and records fallbacks in `state.last_retry_level`.  The
`"scene_list" in inputs` membership test is always true (the key is created
with the initial inputs and never deleted), so that key is a structure field
here and the dead `else` fallback at line 431 is not modelled. -/
def select_pipeline (attempt : Int) (state : ChapterGenerationState)
    (inputs : Inputs) :
    ChapterGenerationState × Inputs × Except PyExc PipelineKind :=
  if attempt == 0 || state.last_retry_level == some "full_retry"
      || state.last_retry_level == none then
    (state, inputs, .ok .full)
  else if state.last_retry_level == some "write_only" then
    match _parse_and_normalize_scene_list inputs.scene_list with
    | .error e => (state, inputs, .error e)
    | .ok none =>
        ({ state with last_retry_level := some "full_retry" }, inputs, .ok .full)
    | .ok (some _) =>
        let inputs2 :=
          if optPyStrTruthy state.scene_list then
            { inputs with scene_list_for_write := state.scene_list.getD .empty }
          else inputs
        (state, inputs2, .ok .writeRetry)
  else if state.last_retry_level == some "edit_only" then
    let inputs2 :=
      if optStrTruthy state.draft_text then
        { inputs with draft_text_for_edit := state.draft_text.getD "" }
      else inputs
    let inputs3 :=
      if optPyStrTruthy state.scene_list then
        { inputs2 with scene_list := state.scene_list.getD .empty }
      else inputs2
    (state, inputs3, .ok .editRetry)
  else
    ({ state with last_retry_level := some "full_retry" }, inputs, .ok .full)

/-! ## The escalation guard (`chapter_crew.py` lines 501-519) -/

def MAX_EDIT_RETRIES : Int := 2

def MAX_WRITE_RETRIES : Int := 2

/-- The escalation-guard block (lines 502-517), with the pydantic attribute
semantics of `ChapterGenerationState`: the same-WriteOnly branch reads the
undeclared `state.write_retry_count` and raises `AttributeError`; the reset
branch zeroes `edit_retry_count` and then raises `ValueError` assigning the
undeclared `write_retry_count`.  Mutations made before a raise persist, so
the (possibly mutated) state is returned alongside the outcome. -/
def apply_retry_limits (retry_level : RetryLevel)
    (state : ChapterGenerationState) :
    ChapterGenerationState × Except PyExc RetryLevel :=
  if retry_level == RetryLevel.EDIT_ONLY
      && state.last_retry_level == some "edit_only" then
    let state2 := { state with edit_retry_count := state.edit_retry_count + 1 }
    if state2.edit_retry_count ≥ MAX_EDIT_RETRIES then
      ({ state2 with edit_retry_count := 0 }, .ok RetryLevel.WRITE_ONLY)
    else (state2, .ok retry_level)
  else if retry_level == RetryLevel.WRITE_ONLY
      && state.last_retry_level == some "write_only" then
    (state, .error (pyAttributeError "write_retry_count"))
  else
    ({ state with edit_retry_count := 0 },
     .error (pydanticNoFieldError "write_retry_count"))

/-- Lines 502-519: the escalation guard followed (only when it did not
raise) by `state.last_retry_level = retry_level.value`. -/
def decide_next_level (retry_level : RetryLevel)
    (state : ChapterGenerationState) :
    ChapterGenerationState × Except PyExc RetryLevel :=
  match apply_retry_limits retry_level state with
  | (st, .ok rl) => ({ st with last_retry_level := some rl.value }, .ok rl)
  | (st, .error e) => (st, .error e)

/-! ## Claims about pipeline selection and the escalation guard -/

/-- A preserved one-scene plan whose target (500) is out of tolerance. -/
def sceneListRaw : SceneList :=
  { chapter_number := 1,
    scenes := [{ scene_number := 1, purpose := "Introduction", target_words := 500 }] }

/-- The word-budget-corrected version of `sceneListRaw`. -/
def sceneListCorrected : SceneList :=
  { chapter_number := 1,
    scenes := [{ scene_number := 1, purpose := "Introduction", target_words := 3000 }] }

/-- State after a WriteOnly decision, holding the raw preserved plan. -/
def stateWriteRetry : ChapterGenerationState :=
  { scene_list := some (.validJson sceneListRaw), draft_text := some "draft",
    revision_text := some "revision", current_attempt := 1,
    last_retry_level := some "write_only", edit_retry_count := 0 }

/-- Inputs carrying the same preserved plan (as `to_preserve` produces). -/
def inputsWriteRetry : Inputs := { scene_list := .validJson sceneListRaw }

/-- Counterexample to C3 as stated: on this WriteOnly retry the preserved
scene plan parses, its word-budget correction succeeds and changes the plan
(target 500 becomes 3000), yet the scene plan handed as the write-stage
input (`inputs["scene_list_for_write"]`) is the raw preserved plan, not the
corrected one. -/
theorem claim_C3_counterexample :
    (select_pipeline 1 stateWriteRetry inputsWriteRetry).2.2 =
      .ok PipelineKind.writeRetry ∧
    (select_pipeline 1 stateWriteRetry inputsWriteRetry).2.1.scene_list_for_write =
      PyStr.validJson sceneListRaw ∧
    _normalize_scene_list_word_count sceneListRaw = .ok sceneListCorrected ∧
    PyStr.validJson sceneListRaw ≠ PyStr.validJson sceneListCorrected := by
  exact ⟨rfl, rfl, rfl, by decide⟩

/-- C3 (corrected): on every WriteOnly retry that reuses a preserved scene
plan (the plan in the inputs parses, its word-budget correction does not
raise, and the state holds a truthy preserved plan), the WriteOnly stage
list runs, but the scene plan handed as the write-stage input is the
preserved raw plan taken from the state, unchanged; the word-budget-corrected
plan serves only as a validity check and is discarded. -/
theorem claim_C3_raw_plan_handed (attempt : Int)
    (state : ChapterGenerationState) (inputs : Inputs)
    (sl sl2 : SceneList) (s : PyStr)
    (ha : attempt ≠ 0)
    (hl : state.last_retry_level = some "write_only")
    (hparse : _parse_scene_list_safe inputs.scene_list = some sl)
    (hnorm : _normalize_scene_list_word_count sl = .ok sl2)
    (hs : state.scene_list = some s) (hst : s.truthy = true) :
    select_pipeline attempt state inputs =
      (state, { inputs with scene_list_for_write := s },
       .ok PipelineKind.writeRetry) := by
  have h0 : (attempt == 0) = false := by
    simpa using ha
  simp [select_pipeline, h0, hl, _parse_and_normalize_scene_list, hparse, hnorm,
    optPyStrTruthy, hs, hst]

/-- Witness for C3's amended statement at concrete data. -/
theorem claim_C3_raw_plan_handed_witness :
    select_pipeline 1 stateWriteRetry inputsWriteRetry =
      (stateWriteRetry,
       { inputsWriteRetry with scene_list_for_write := PyStr.validJson sceneListRaw },
       .ok PipelineKind.writeRetry) :=
  claim_C3_raw_plan_handed 1 stateWriteRetry inputsWriteRetry
    sceneListRaw sceneListCorrected (PyStr.validJson sceneListRaw)
    (by decide) rfl rfl rfl rfl rfl

/-- C4 is a code bug: `ChapterGenerationState` declares no
`write_retry_count` field, so when a WriteOnly run fails and the classifier
again selects WriteOnly, the escalation guard raises `AttributeError` while
reading `state.write_retry_count` instead of incrementing a streak counter;
and when the classifier selects a different level, the reset branch zeroes
`edit_retry_count` and then raises `ValueError` assigning the undeclared
`write_retry_count`.  Both exceptions are swallowed by the attempt-level
handler, so no streak is ever maintained or escalated. -/
theorem claim_C4_write_streak_bug :
    apply_retry_limits RetryLevel.WRITE_ONLY stateWriteRetry =
      (stateWriteRetry, .error (pyAttributeError "write_retry_count")) ∧
    apply_retry_limits RetryLevel.FULL_RETRY stateWriteRetry =
      ({ stateWriteRetry with edit_retry_count := 0 },
       .error (pydanticNoFieldError "write_retry_count")) := by
  exact ⟨rfl, rfl⟩

/-- C5: when a run at level EditOnly fails and the classifier again selects
EditOnly, the guard increments the EditOnly consecutive-retry streak; after
two such consecutive same-level EditOnly decisions the streak reaches 2
(`MAX_EDIT_RETRIES`), the next run's level is forced to WriteOnly, and the
edit streak is reset to 0. -/
theorem claim_C5_edit_streak (st : ChapterGenerationState)
    (hl : st.last_retry_level = some "edit_only")
    (hc : st.edit_retry_count = 0) :
    decide_next_level RetryLevel.EDIT_ONLY st =
      ({ st with edit_retry_count := 1, last_retry_level := some "edit_only" },
       .ok RetryLevel.EDIT_ONLY) ∧
    decide_next_level RetryLevel.EDIT_ONLY
        { st with edit_retry_count := 1, last_retry_level := some "edit_only" } =
      ({ st with edit_retry_count := 0, last_retry_level := some "write_only" },
       .ok RetryLevel.WRITE_ONLY) := by
  constructor
  · simp [decide_next_level, apply_retry_limits, hl, hc, MAX_EDIT_RETRIES,
      RetryLevel.value]
  · simp [decide_next_level, apply_retry_limits, MAX_EDIT_RETRIES,
      RetryLevel.value]

/-- Witness for C5 at a concrete state with a zero edit streak. -/
theorem claim_C5_edit_streak_witness :
    decide_next_level RetryLevel.EDIT_ONLY
        { last_retry_level := some "edit_only" } =
      ({ last_retry_level := some "edit_only", edit_retry_count := 1 },
       .ok RetryLevel.EDIT_ONLY) ∧
    decide_next_level RetryLevel.EDIT_ONLY
        { last_retry_level := some "edit_only", edit_retry_count := 1 } =
      ({ last_retry_level := some "write_only", edit_retry_count := 0 },
       .ok RetryLevel.WRITE_ONLY) :=
  claim_C5_edit_streak { last_retry_level := some "edit_only" } rfl rfl

/-- State after an EditOnly decision whose draft text is unset. -/
def stateEditNoDraft : ChapterGenerationState :=
  { scene_list := some (.validJson sceneListRaw), draft_text := none,
    revision_text := some "revision", current_attempt := 1,
    last_retry_level := some "edit_only", edit_retry_count := 0 }

/-- Counterexample to C7 as stated: with the level to run EditOnly and the
state's draft text unset, the controller still runs the EditOnly stage list
(edit, judge, update-bible); it does not degrade the attempt to the
WriteOnly stage list. -/
theorem claim_C7_counterexample :
    (select_pipeline 1 stateEditNoDraft { }).2.2 = .ok PipelineKind.editRetry ∧
    pipeline_tasks PipelineKind.editRetry ≠ pipeline_tasks PipelineKind.writeRetry := by
  exact ⟨rfl, by decide⟩

/-- C7 (corrected): when the level to run is EditOnly but the state's draft
text is unset, the controller neither crashes nor degrades to WriteOnly: it
logs, leaves the `draft_text_for_edit` input unchanged, and runs the
EditOnly stage list for that attempt. -/
theorem claim_C7_edit_without_draft (attempt : Int)
    (state : ChapterGenerationState) (inputs : Inputs)
    (ha : attempt ≠ 0)
    (hl : state.last_retry_level = some "edit_only")
    (hd : state.draft_text = none) :
    (select_pipeline attempt state inputs).2.2 = .ok PipelineKind.editRetry ∧
    (select_pipeline attempt state inputs).2.1.draft_text_for_edit =
      inputs.draft_text_for_edit ∧
    (select_pipeline attempt state inputs).1 = state := by
  have h0 : (attempt == 0) = false := by
    simpa using ha
  have key : select_pipeline attempt state inputs =
      (state,
       if optPyStrTruthy state.scene_list then
         { inputs with scene_list := state.scene_list.getD .empty }
       else inputs,
       .ok PipelineKind.editRetry) := by
    simp [select_pipeline, h0, hl, hd, optStrTruthy]
  refine ⟨by rw [key], ?_, by rw [key]⟩
  rw [key]
  split <;> rfl

/-- Witness for C7's amended statement at concrete data. -/
theorem claim_C7_edit_without_draft_witness :
    (select_pipeline 1 stateEditNoDraft { }).2.2 = .ok PipelineKind.editRetry ∧
    (select_pipeline 1 stateEditNoDraft { }).2.1.draft_text_for_edit =
      Inputs.draft_text_for_edit { } ∧
    (select_pipeline 1 stateEditNoDraft { }).1 = stateEditNoDraft :=
  claim_C7_edit_without_draft 1 stateEditNoDraft { } (by decide) rfl rfl

/-- C8: when the level to run is WriteOnly but the preserved scene plan is
unset (the empty string) or fails structural validation, the controller
records the degradation and runs the FullRetry stage list for that attempt
instead of raising. -/
theorem claim_C8_writeonly_fallback (attempt : Int)
    (state : ChapterGenerationState) (inputs : Inputs)
    (ha : attempt ≠ 0)
    (hl : state.last_retry_level = some "write_only")
    (hp : _parse_scene_list_safe inputs.scene_list = none) :
    select_pipeline attempt state inputs =
      ({ state with last_retry_level := some "full_retry" }, inputs,
       .ok PipelineKind.full) ∧
    pipeline_tasks PipelineKind.full =
      ["plan_chapter", "write_chapter", "edit_chapter", "judge_chapter",
       "update_bible"] := by
  have h0 : (attempt == 0) = false := by
    simpa using ha
  constructor
  · simp [select_pipeline, h0, hl, _parse_and_normalize_scene_list, hp]
  · rfl

/-- Witness for C8 at a concrete state whose preserved plan is unset. -/
theorem claim_C8_writeonly_fallback_witness :
    select_pipeline 1 { stateWriteRetry with scene_list := none } { } =
      ({ stateWriteRetry with scene_list := none, last_retry_level := some "full_retry" },
       { }, .ok PipelineKind.full) ∧
    pipeline_tasks PipelineKind.full =
      ["plan_chapter", "write_chapter", "edit_chapter", "judge_chapter",
       "update_bible"] :=
  claim_C8_writeonly_fallback 1 { stateWriteRetry with scene_list := none } { }
    (by decide) rfl rfl

/-! ## Stage execution and the `generate_chapter` attempt loop -/

/-- A value a crew task output can carry in its `pydantic` attribute. -/
inductive PyVal
  | sceneListVal (sl : SceneList)
  | judgeVal (j : JudgeReport)
  | bibleVal (b : String)
deriving DecidableEq, Repr

/-- A crewai task output: `raw` is always a string; `pydantic` holds the
parsed model when the task produced one (so the `hasattr` probes in
`_update_state_from_result` are always true). -/
structure TaskOutput where
  pydantic : Option PyVal := none
  raw : String := ""
deriving DecidableEq, Repr

/-- Outcome of one `Crew.kickoff`: the stage raises, or returns
`tasks_output`. -/
inductive StageResult
  | raise (e : PyExc)
  | result (tasks_output : List TaskOutput)

/-- Stage execution is an external collaborator: an oracle from the attempt
number, the selected pipeline and the inputs to what `kickoff` does. -/
abbrev CrewOracle := Int → PipelineKind → Inputs → StageResult

/-- `outputs[i]`, raising `IndexError` when out of range. -/
def pyIndex (outputs : List TaskOutput) (i : Nat) : Except PyExc TaskOutput :=
  match outputs.get? i with
  | some o => .ok o
  | none => .error indexError

/-- `AttributeError` from `judge.passed` when the extracted `pydantic` value
is not a judge report (for instance `None`). -/
def judgePassedAttributeError : PyExc :=
  { type_name := "AttributeError", msg := "object has no attribute passed" }

/-- Evaluating `judge.passed` on the extracted value. -/
def judgeOfVal : Option PyVal → Except PyExc JudgeReport
  | some (.judgeVal j) => .ok j
  | _ => .error judgePassedAttributeError

/-- `AttributeError` from `outputs[0].pydantic.model_dump_json()` when the
`pydantic` attribute is `None`. -/
def noneDumpError : PyExc :=
  { type_name := "AttributeError",
    msg := "NoneType object has no attribute model_dump_json" }

/-- `state.scene_list = outputs[0].pydantic.model_dump_json()`: dumping a
scene list serializes to a string that parses back to it; dumping any other
model yields JSON that fails `SceneList` validation. -/
def dumpSceneListJson : Option PyVal → Except PyExc PyStr
  | none => .error noneDumpError
  | some (.sceneListVal sl) => .ok (.validJson sl)
  | some _ => .ok (.invalidJson "other-model-json")

/-- `ChapterCrew._update_state_from_result` (lines 290-351): absorb the
stage outputs into the state according to the level that just ran; output
lists shorter than expected are silently skipped. -/
def _update_state_from_result (state : ChapterGenerationState)
    (outputs : List TaskOutput) : Except PyExc ChapterGenerationState :=
  if state.current_attempt == 0 || state.last_retry_level == none
      || state.last_retry_level == some "full_retry" then
    if outputs.length ≥ 5 then do
      let o0 ← pyIndex outputs 0
      let j ← dumpSceneListJson o0.pydantic
      let o1 ← pyIndex outputs 1
      let o2 ← pyIndex outputs 2
      Except.ok { state with scene_list := some j, draft_text := some o1.raw,
                             revision_text := some o2.raw }
    else Except.ok state
  else if state.last_retry_level == some "write_only" then
    if outputs.length ≥ 4 then do
      let o0 ← pyIndex outputs 0
      let o1 ← pyIndex outputs 1
      Except.ok { state with draft_text := some o0.raw,
                             revision_text := some o1.raw }
    else Except.ok state
  else if state.last_retry_level == some "edit_only" then
    if outputs.length ≥ 3 then do
      let o0 ← pyIndex outputs 0
      Except.ok { state with revision_text := some o0.raw }
    else Except.ok state
  else Except.ok state

/-- The result-extraction block (lines 466-485): the `pydantic` values at
the judge and updated-bible positions for the level just run. -/
def extract_judge_bible (last_retry_level : Option String)
    (outputs : List TaskOutput) :
    Except PyExc (Option PyVal × Option PyVal) :=
  if last_retry_level == some "edit_only" then do
    let oj ← pyIndex outputs 1
    let ob ← pyIndex outputs 2
    Except.ok (oj.pydantic, ob.pydantic)
  else if last_retry_level == some "write_only" then do
    let oj ← pyIndex outputs 2
    let ob ← pyIndex outputs 3
    Except.ok (oj.pydantic, ob.pydantic)
  else do
    let oj ← pyIndex outputs 3
    let ob ← pyIndex outputs 4
    Except.ok (oj.pydantic, ob.pydantic)

/-- The dict `generate_chapter` returns; the `success` key is present only
on the exhausted-return path. -/
structure ChapterResult where
  chapter_text : Option String
  updated_bible : Option PyVal
  judge_report : JudgeReport
  attempts : Int
  success : Option Bool := none
deriving DecidableEq, Repr

/-- The loop-local variables `revision_text`, `updated_bible`, `judge` bound
by the last extraction that ran (they survive a caught exception). -/
structure LastVals where
  revision_text : Option String
  updated_bible : Option PyVal
  judge : JudgeReport
deriving DecidableEq, Repr

/-- `"\n".join(judge.revision_instructions)`. -/
def joinNewline (l : List String) : String := String.intercalate "\n" l

def max_retries : Int := 2

/-- `"RateLimitError" in error_type or "rate limit" in error_msg.lower()`. -/
def is_rate_limit_exc (e : PyExc) : Bool :=
  strContainsSub e.type_name "RateLimitError"
    || strContainsSub (strLower e.msg) "rate limit"

/-- The per-attempt `except` handler (lines 528-554): when attempts remain
(`attempt < max_retries`), clear the pending revision-instruction guidance
and pick the backoff delay — a fixed 60 seconds for rate-limit-class
errors, otherwise the capped exponential `min(5 * 2**attempt, 30)`; when no
attempts remain, `none`: the exception propagates. -/
def handle_attempt_exception (e : PyExc) (attempt : Int) (inputs : Inputs) :
    Option (Inputs × Int) :=
  if attempt ≥ max_retries then none
  else some ({ inputs with revision_instructions := "" },
    if is_rate_limit_exc e then 60 else min (5 * 2 ^ attempt.toNat) 30)

/-- One iteration of the `generate_chapter` try-block (lines 413-526): pick
and run the pipeline, absorb the outputs into the state, extract judge and
bible, and on a failed verdict classify and guard the next level and
re-prime the inputs.  Returns the (possibly mutated) state and inputs, the
loop-locals, and `some result` on pass, `none` to continue, or the raised
exception. -/
def attempt_body (crew : CrewOracle) (attempt : Int)
    (state : ChapterGenerationState) (inputs : Inputs)
    (lastv : Option LastVals) :
    ChapterGenerationState × Inputs × Option LastVals ×
      Except PyExc (Option ChapterResult) :=
  match select_pipeline attempt state inputs with
  | (st1, in1, .error e) => (st1, in1, lastv, .error e)
  | (st1, in1, .ok pk) =>
    match crew attempt pk in1 with
    | .raise e => (st1, in1, lastv, .error e)
    | .result outputs =>
      match _update_state_from_result st1 outputs with
      | .error e => (st1, in1, lastv, .error e)
      | .ok st2 =>
        match extract_judge_bible st2.last_retry_level outputs with
        | .error e => (st2, in1, lastv, .error e)
        | .ok (jv, bible) =>
          match judgeOfVal jv with
          | .error e => (st2, in1, lastv, .error e)
          | .ok judge =>
            let lastv2 := some { revision_text := st2.revision_text,
                                 updated_bible := bible, judge := judge :
                                 LastVals }
            if judge.passed then
              (st2, in1, lastv2, .ok (some
                { chapter_text := st2.revision_text, updated_bible := bible,
                  judge_report := judge, attempts := attempt + 1 }))
            else
              match decide_next_level (determine_retry_level judge attempt) st2 with
              | (st3, .error e) => (st3, in1, lastv2, .error e)
              | (st3, .ok rl) =>
                let in2 := updateInputsPreserved in1 (st3.to_preserve rl)
                (st3,
                 { in2 with revision_instructions :=
                     joinNewline judge.revision_instructions },
                 lastv2, .ok none)

/-- Whether `generate_chapter` returned or raised, with the backoff delays
slept along the way. -/
inductive GenOutcome
  | returns (r : ChapterResult)
  | raises (e : PyExc)
deriving DecidableEq, Repr

/-- The `for attempt in range(max_retries + 1)` loop (lines 410-554) plus
the exhausted-return (lines 556-564).  Falling off the end of the loop reads
the loop-locals from the last attempt whose extraction ran (`NameError` if
none did) and returns them with `success = False`. -/
def run_attempts (crew : CrewOracle) :
    List Int → ChapterGenerationState → Inputs → Option LastVals → List Int →
    GenOutcome × List Int
  | [], _, _, lastv, delays =>
      match lastv with
      | some lv =>
          (.returns { chapter_text := lv.revision_text,
                      updated_bible := lv.updated_bible,
                      judge_report := lv.judge, attempts := max_retries + 1,
                      success := some false }, delays)
      | none => (.raises (nameError "revision_text"), delays)
  | attempt :: rest, state, inputs, lastv, delays =>
      match attempt_body crew attempt { state with current_attempt := attempt }
          inputs lastv with
      | (_, _, _, .ok (some r)) => (.returns r, delays)
      | (st, ins, lv, .ok none) => run_attempts crew rest st ins lv delays
      | (st, ins, lv, .error e) =>
          match handle_attempt_exception e attempt ins with
          | none => (.raises e, delays)
          | some (ins2, d) => run_attempts crew rest st ins2 lv (delays ++ [d])

/-- `ChapterCrew.generate_chapter`: fresh state, placeholder inputs, then
the attempt loop over attempts `0 .. max_retries`. -/
def generate_chapter (crew : CrewOracle) (revision_instructions : String) :
    GenOutcome × List Int :=
  run_attempts crew
    ((List.range (max_retries.toNat + 1)).map (fun n => (n : Int)))
    { } { revision_instructions := revision_instructions } none []

/-! ## Claims about the attempt loop -/

/-- A failing judge verdict with one medium prose issue. -/
def failingProseJudge : JudgeReport :=
  { passed := false,
    issues := [{ type := IssueType.prose, severity := Severity.medium }],
    revision_instructions := ["improve the prose"] }

/-- A crew oracle whose judge fails every attempt, with well-formed stage
outputs for whichever pipeline runs and no stage exception. -/
def allFailCrew : CrewOracle := fun _ pk _ =>
  match pk with
  | .full => .result
      [{ pydantic := some (.sceneListVal sceneListRaw) },
       { raw := "draft text" },
       { raw := "revision text" },
       { pydantic := some (.judgeVal failingProseJudge) },
       { pydantic := some (.bibleVal "bible") }]
  | .writeRetry => .result
      [{ raw := "draft text" },
       { raw := "revision text" },
       { pydantic := some (.judgeVal failingProseJudge) },
       { pydantic := some (.bibleVal "bible") }]
  | .editRetry => .result
      [{ raw := "revision text" },
       { pydantic := some (.judgeVal failingProseJudge) },
       { pydantic := some (.bibleVal "bible") }]

/-- C6 is a code bug: with every attempt's judge returning `passed = false`
and no stage-execution exception anywhere, `generate_chapter` does not
return a `success = false`, `attempts = 3` result — every failed verdict
reaches the escalation guard's reset branch, whose assignment to the
undeclared `write_retry_count` raises `ValueError`; on attempts 0 and 1 the
attempt-level handler swallows it (exponential backoffs of 5 and 10
seconds, and the attempt reruns the full pipeline), and on the final
attempt the exception is re-raised to the caller. -/
theorem claim_C6_exhaustion_raises :
    generate_chapter allFailCrew "" =
      (GenOutcome.raises (pydanticNoFieldError "write_retry_count"),
       [5, 10]) := by
  rfl

/-- C9: for every exception `e` raised during stage execution within an
attempt (surfaced by `attempt_body` as `.error e`): with attempts remaining
the loop clears the pending revision-instruction guidance, records the
backoff delay (a fixed 60 seconds for rate-limit-class errors, otherwise
the capped exponential `min(5 * 2**attempt, 30)`), and retries with the
remaining attempts; with no attempts remaining the exception propagates to
the caller. -/
theorem claim_C9_stage_exception_handling (crew : CrewOracle) (e : PyExc)
    (attempt : Int) (rest : List Int) (state st : ChapterGenerationState)
    (inputs ins : Inputs) (lastv lv : Option LastVals) (delays : List Int)
    (hbody : attempt_body crew attempt { state with current_attempt := attempt }
      inputs lastv = (st, ins, lv, .error e)) :
    (attempt ≥ max_retries →
      run_attempts crew (attempt :: rest) state inputs lastv delays =
        (.raises e, delays)) ∧
    (attempt < max_retries →
      run_attempts crew (attempt :: rest) state inputs lastv delays =
        run_attempts crew rest st { ins with revision_instructions := "" } lv
          (delays ++ [if is_rate_limit_exc e then 60
                      else min (5 * 2 ^ attempt.toNat) 30])) := by
  constructor
  · intro h
    simp only [run_attempts, hbody, handle_attempt_exception, if_pos h]
  · intro h
    simp only [run_attempts, hbody, handle_attempt_exception,
      if_neg (by omega : ¬ attempt ≥ max_retries)]

/-- A stage that raises a non-rate-limit API error on every call. -/
def raisingCrew : CrewOracle := fun _ _ _ =>
  .raise { type_name := "APIError", msg := "upstream failure" }

/-- Witness for C9 at attempt 0 with a non-rate-limit stage exception: the
loop continues with the remaining attempts, guidance cleared and a 5-second
backoff recorded. -/
theorem claim_C9_stage_exception_handling_witness :
    run_attempts raisingCrew [0, 1, 2] { } { } none [] =
      run_attempts raisingCrew [1, 2] { } { } none [5] := by
  have h := claim_C9_stage_exception_handling raisingCrew
    { type_name := "APIError", msg := "upstream failure" } 0 [1, 2]
    { } { } { } { } none none [] rfl
  exact h.2 (by decide)
